import Mathlib

/-!
Shallow embedding of `src/main.go` (wxdash): a weather-lookup pipeline.
JSON values are modelled as an inductive tree with rational numbers
(Go decodes JSON numbers into float64; all numbers appearing in this
development are exactly representable decimals). Go strings are modelled
as Lean strings of characters (all strings involved are ASCII, where Go
byte indexing and character indexing coincide). A run-time panic from a
failed type assertion, an out-of-range slice index, or an out-of-range
string slice is modelled by the `Except GoPanic` monad. The network and
the JSON decoder are modelled by a function `net : String → HTTPOutcome`
giving, for each request URL, either a transport error, a decode error,
or the decoded JSON document.
-/

set_option autoImplicit false

/-- Generic JSON value, as produced by Go `encoding/json` decoding into
`interface\x7b\x7d`: null, booleans, numbers (float64, modelled as ℚ),
strings, arrays, and objects (string-keyed maps, modelled as association
lists; Go maps have no duplicate keys). -/
inductive JSON where
  | null : JSON
  | bool : Bool → JSON
  | num : ℚ → JSON
  | str : String → JSON
  | arr : List JSON → JSON
  | obj : List (String × JSON) → JSON

/-- Lookup of a key in a JSON object association list, modelling Go map
indexing `m[k]` together with the `for k := range m` key-match loops of
the source (each loop body fires exactly when the key is present). -/
def jlookup : List (String × JSON) → String → Option JSON
  | [], _ => none
  | (k, v) :: rest, key => if k = key then some v else jlookup rest key

/-- Run-time panics the Go extractors can raise. -/
inductive GoPanic where
  | typeAssertion : GoPanic
  | indexOutOfRange : GoPanic
  | sliceBounds : GoPanic
deriving DecidableEq

/-- LookupData is the record sent to the frontend when a lookup is performed. -/
structure LookupData where
  ZipCode : String
  City : String
  State : String
  Temperature : ℚ
  Station : String
deriving DecidableEq

/-- LocationData represents a location in the USA.  Defaults are the Go
zero values of `var loc LocationData`. -/
structure LocationData where
  City : String := ""
  State : String := ""
  Zip : String := ""
  Latitude : ℚ := 0
  Longitude : ℚ := 0
deriving DecidableEq

/-- WeatherObservation represents an observation from a NOAA observation station. -/
structure WeatherObservation where
  Station : String
  Temperature : ℚ
deriving DecidableEq

/-- Outcome of one HTTP GET followed by JSON decoding: transport error
(with message), decode error (with message), or a decoded document. -/
abbrev HTTPOutcome := Except String (Except String JSON)

/-- getJSONData makes a GET request to the specified URL and returns the
decoded body.  On transport failure it logs a diagnostic line to stdout
and returns the nil sentinel (`none`); on decode failure it logs a
different diagnostic line and returns the same sentinel.  The returned
list is the text written to standard output. -/
def getJSONData (net : String → HTTPOutcome) (requestURL : String) :
    Option JSON × List String :=
  match net requestURL with
  | .error e =>
      (none, ["There was an error making the request to the location info API: " ++ e ++ "\n"])
  | .ok (.error e) =>
      (none, ["There was an error processing JSON data: " ++ e ++ "\n"])
  | .ok (.ok jsonData) => (some jsonData, [])

/-- Go type assertion `x.(map[string]interface\x7b\x7d)` on a possibly-nil
`interface\x7b\x7d` value: panics unless the value is a non-nil JSON object. -/
def asObj : Option JSON → Except GoPanic (List (String × JSON))
  | some (.obj fl) => .ok fl
  | _ => .error .typeAssertion

/-- Go type assertion to `map[string]interface\x7b\x7d` on a JSON value. -/
def asObjJ : JSON → Except GoPanic (List (String × JSON))
  | .obj fl => .ok fl
  | _ => .error .typeAssertion

/-- Go type assertion to `[]interface\x7b\x7d` on a JSON value. -/
def asArrJ : JSON → Except GoPanic (List JSON)
  | .arr xs => .ok xs
  | _ => .error .typeAssertion

/-- Go type assertion to `string` on a JSON value. -/
def asStrJ : JSON → Except GoPanic String
  | .str s => .ok s
  | _ => .error .typeAssertion

/-- Go type assertion to `float64` on a JSON value (JSON null decodes to a
nil `interface\x7b\x7d`, so asserting it to float64 panics). -/
def asNumJ : JSON → Except GoPanic ℚ
  | .num q => .ok q
  | _ => .error .typeAssertion

/-- Number of decimal digits needed after the point to write `q` exactly
(bounded search; every float64 value has a finite decimal expansion).
Models the fractional length of Go `%v` shortest-form float formatting. -/
def decDigits (q : ℚ) : Nat :=
  ((List.range 21).find? (fun k => (q * 10 ^ k).den = 1)).getD 20

/-- Go `fmt.Sprintf("%v", f)` for a float64 `f`: shortest decimal form,
no trailing zeros, no decimal point for integral values. -/
def goFmtQ (q : ℚ) : String :=
  let sign := if q < 0 then "-" else ""
  let a := |q|
  let k := decDigits a
  let n := (a * 10 ^ k).num.toNat
  if k = 0 then
    sign ++ toString n
  else
    let frac := toString (n % 10 ^ k)
    let pad := String.mk (List.replicate (k - frac.length) '0')
    sign ++ toString (n / 10 ^ k) ++ "." ++ pad ++ frac

/-- URL built by latLonForZip. -/
def geoURL (zip : String) : String :=
  "https://public.opendatasoft.com/api/records/1.0/search/?dataset=us-zip-code-latitude-and-longitude&q=" ++ zip

/-- URL built by findNearestStation. -/
def stationsURL (lat lon : ℚ) : String :=
  "https://api.weather.gov/points/" ++ goFmtQ lat ++ "," ++ goFmtQ lon ++ "/stations"

/-- URL built by getLatestObservation. -/
def obsURL (station : String) : String :=
  "https://api.weather.gov/stations/" ++ station ++ "/observations/latest"

/-- One iteration of the `switch` in the `for k = range typedLocData` loop
of latLonForZip: a recognised key copies its value into the matching field
after a type assertion; any other key is ignored. -/
def applyField (loc : LocationData) (k : String) (v : JSON) :
    Except GoPanic LocationData :=
  if k = "city" then do pure { loc with City := ← asStrJ v }
  else if k = "zip" then do pure { loc with Zip := ← asStrJ v }
  else if k = "longitude" then do pure { loc with Longitude := ← asNumJ v }
  else if k = "state" then do pure { loc with State := ← asStrJ v }
  else if k = "latitude" then do pure { loc with Latitude := ← asNumJ v }
  else pure loc

/-- The `for k = range typedLocData` loop of latLonForZip, folding
`applyField` over the entries of the "fields" object. -/
def foldFields (loc : LocationData) : List (String × JSON) → Except GoPanic LocationData
  | [] => pure loc
  | (k, v) :: rest => do foldFields (← applyField loc k v) rest

/-- latLonForZip takes a given zip code as a string and uses the
OpenDataSoft API to gather location info relative to that zip code.
Faithful to the source: asserts the response is a map, looks for
"records", takes element 0 unconditionally (index panic when empty),
looks for "fields", and copies the recognised keys. -/
def latLonForZip (net : String → HTTPOutcome) (zip : String) :
    Except GoPanic LocationData := do
  let url := geoURL zip
  let jsonData := (getJSONData net url).1
  let typedJSONData ← asObj jsonData
  match jlookup typedJSONData "records" with
  | none => pure {}
  | some recordsV => do
      let typedRecordsInfo ← asArrJ recordsV
      match typedRecordsInfo with
      | [] => throw .indexOutOfRange
      | r0 :: _ => do
          let typedInfoRecord ← asObjJ r0
          match jlookup typedInfoRecord "fields" with
          | none => pure {}
          | some fieldsV => do
              let typedLocData ← asObjJ fieldsV
              foldFields {} typedLocData

/-- findNearestStation queries the weather.gov points endpoint and
extracts the last four characters of the first listed station URL.
Faithful to the source: empty or absent "observationStations" falls
through to return the zero-valued `stationID` (empty string); a first
element shorter than four characters makes `stationID[len-4:]` panic. -/
def findNearestStation (net : String → HTTPOutcome) (lat lon : ℚ) :
    Except GoPanic String := do
  let stationID := ""
  let url := stationsURL lat lon
  let jsonData := (getJSONData net url).1
  let typedJSONData ← asObj jsonData
  match jlookup typedJSONData "observationStations" with
  | none => pure stationID
  | some v => do
      let typedStations ← asArrJ v
      match typedStations with
      | [] => pure stationID
      | s0 :: _ => do
          let s ← asStrJ s0
          if 4 ≤ s.length then
            pure (s.drop (s.length - 4))
          else
            throw .sliceBounds

/-- getLatestObservation starts from `WeatherObservation\x7bstation, 0\x7d`
and overwrites the temperature when properties.temperature.value is
present, asserting each traversed level to be a map and the value to be a
float64. -/
def getLatestObservation (net : String → HTTPOutcome) (station : String) :
    Except GoPanic WeatherObservation := do
  let latestObservation : WeatherObservation := ⟨station, 0⟩
  let requestURL := obsURL station
  let jsonData := (getJSONData net requestURL).1
  let typedJSONData ← asObj jsonData
  match jlookup typedJSONData "properties" with
  | none => pure latestObservation
  | some pv => do
      let typedProps ← asObjJ pv
      match jlookup typedProps "temperature" with
      | none => pure latestObservation
      | some tv => do
          let typedTemp ← asObjJ tv
          match jlookup typedTemp "value" with
          | none => pure latestObservation
          | some vv => do
              let t ← asNumJ vv
              pure { latestObservation with Temperature := t }

/-- getObservationForZip composes Geocoder, Station Resolver and
Observation Fetcher; a panic in any stage aborts the whole lookup. -/
def getObservationForZip (net : String → HTTPOutcome) (zip : String) :
    Except GoPanic LookupData := do
  let loc ← latLonForZip net zip
  let nearestStation ← findNearestStation net loc.Latitude loc.Longitude
  let latestObservation ← getLatestObservation net nearestStation
  pure { City := loc.City
         State := loc.State
         ZipCode := loc.Zip
         Temperature := latestObservation.Temperature
         Station := latestObservation.Station }

/-- A network in which every request succeeds at transport and decode
level and yields the same document `j`. -/
def constNet (j : JSON) : String → HTTPOutcome := fun _ => .ok (.ok j)

/-- A network in which every request fails at transport level, so
getJSONData always returns its nil sentinel. -/
def downNet : String → HTTPOutcome := fun _ => .error "connection refused"

/-- Well-typedness of a single entry of the "fields" object, as the Go
switch expects it: the three text keys must hold strings, the two
coordinate keys must hold numbers, and any other key may hold anything. -/
def fieldOK (k : String) (v : JSON) : Bool :=
  if k = "city" ∨ k = "zip" ∨ k = "state" then
    match v with
    | .str _ => true
    | _ => false
  else if k = "longitude" ∨ k = "latitude" then
    match v with
    | .num _ => true
    | _ => false
  else true

/-- Every entry of the "fields" object is well typed for the Go switch. -/
def wellTypedFields (gl : List (String × JSON)) : Bool :=
  gl.all fun p => fieldOK p.1 p.2

/-- The string stored under `key`, or the default `d` when the key is
absent or not a string. -/
def strAt (gl : List (String × JSON)) (key : String) (d : String) : String :=
  match jlookup gl key with
  | some (.str s) => s
  | _ => d

/-- The number stored under `key`, or the default `d` when the key is
absent or not a number. -/
def numAt (gl : List (String × JSON)) (key : String) (d : ℚ) : ℚ :=
  match jlookup gl key with
  | some (.num q) => q
  | _ => d

/-- Specification-side description of the Geocoder extraction policy
(section 4.2 of the spec): each of the five recognised keys, when present
in "fields", is copied into the corresponding Location field; an absent
key leaves its field at the Go zero value; all other keys are ignored. -/
def specLocationOfFields (gl : List (String × JSON)) : LocationData :=
  { City := strAt gl "city" ""
    State := strAt gl "state" ""
    Zip := strAt gl "zip" ""
    Latitude := numAt gl "latitude" 0
    Longitude := numAt gl "longitude" 0 }

/-- The path properties.temperature.value is absent from an observation
response: the key is missing at some level, and every traversed level
that is present is a mapping. -/
def tempPathAbsent (fl : List (String × JSON)) : Bool :=
  match jlookup fl "properties" with
  | none => true
  | some (.obj pl) =>
      match jlookup pl "temperature" with
      | none => true
      | some (.obj tl) =>
          match jlookup tl "value" with
          | none => true
          | some _ => false
      | some _ => false
  | some _ => false

/-- Entries of the "fields" object of the mocked geocoding response for
zip 20500. -/
def fieldsL : List (String × JSON) :=
  [("city", JSON.str "Washington"), ("state", JSON.str "DC"), ("zip", JSON.str "20500"),
   ("latitude", JSON.num 38.9), ("longitude", JSON.num (-77.03))]

/-- Entries of records[0] of the mocked geocoding response. -/
def rl0L : List (String × JSON) := [("fields", JSON.obj fieldsL)]

/-- Entries of the mocked geocoding response object. -/
def geoFL : List (String × JSON) := [("records", JSON.arr [JSON.obj rl0L])]

/-- The mocked geocoding response for zip 20500. -/
def geoJ : JSON := JSON.obj geoFL

/-- The mocked stations response: one station URL ending in KDCA. -/
def staJ : JSON :=
  JSON.obj [("observationStations", JSON.arr [JSON.str "https://api.weather.gov/stations/KDCA"])]

/-- The mocked observation response: temperature value 21.1. -/
def obsJ : JSON :=
  JSON.obj [("properties", JSON.obj [("temperature", JSON.obj [("value", JSON.num 21.1)])])]

/-- The mocked network of the end-to-end scenario: each of the three
URLs built by the pipeline for zip 20500 is served its mocked document. -/
def mockNet : String → HTTPOutcome := fun url =>
  if url = geoURL "20500" then .ok (.ok geoJ)
  else if url = stationsURL 38.9 (-77.03) then .ok (.ok staJ)
  else if url = obsURL "KDCA" then .ok (.ok obsJ)
  else .error "unexpected request"

/-- Fields object of a geocoding response whose latitude is out of the
valid range [-90, 90]: the code copies it without any range check. -/
def cexGeoFields : List (String × JSON) :=
  [("zip", JSON.str "99999"), ("latitude", JSON.num 1000), ("longitude", JSON.num 0)]

/-- Geocoding response carrying the out-of-range latitude 1000. -/
def cexGeoJ : JSON :=
  JSON.obj [("records", JSON.arr [JSON.obj [("fields", JSON.obj cexGeoFields)]])]

/-- Observation response whose properties.temperature.value path exists
but holds JSON null (permitted by the upstream interface). -/
def nullValueObsJ : JSON :=
  JSON.obj [("properties", JSON.obj [("temperature", JSON.obj [("value", JSON.null)])])]

/-- Looking a key up in a cons association list. -/
theorem jlookup_cons (k : String) (v : JSON) (rest : List (String × JSON)) (key : String) :
    jlookup ((k, v) :: rest) key = if k = key then some v else jlookup rest key := rfl

/-- A key outside the key set of an association list is not found. -/
theorem jlookup_eq_none {l : List (String × JSON)} {key : String}
    (h : key ∉ l.map Prod.fst) : jlookup l key = none := by
  induction l with
  | nil => rfl
  | cons p rest ih =>
      obtain ⟨k, v⟩ := p
      simp only [List.map_cons, List.mem_cons, not_or] at h
      obtain ⟨h1, h2⟩ := h
      simp only [jlookup]
      rw [if_neg (fun hkk => h1 hkk.symm)]
      exact ih h2

set_option maxHeartbeats 1000000 in
/-- The field-copying loop of latLonForZip, run over a well-typed fields
object with unique keys, succeeds and produces exactly the per-key
lookups, defaulting each absent key to the incoming field value. -/
theorem foldFields_eq (gl : List (String × JSON)) (loc : LocationData)
    (hwt : wellTypedFields gl = true) (hnd : (gl.map Prod.fst).Nodup) :
    foldFields loc gl = .ok
      { City := strAt gl "city" loc.City
        State := strAt gl "state" loc.State
        Zip := strAt gl "zip" loc.Zip
        Latitude := numAt gl "latitude" loc.Latitude
        Longitude := numAt gl "longitude" loc.Longitude } := by
  induction gl generalizing loc with
  | nil => rfl
  | cons p rest ih =>
      obtain ⟨k, v⟩ := p
      simp only [wellTypedFields, List.all_cons, Bool.and_eq_true] at hwt
      obtain ⟨hok, hrest⟩ := hwt
      simp only [List.map_cons, List.nodup_cons] at hnd
      obtain ⟨hkni, hndr⟩ := hnd
      have hwtr : wellTypedFields rest = true := hrest
      by_cases hc1 : k = "city"
      · subst hc1
        have hv : ∃ s, v = JSON.str s := by cases v <;> simp [fieldOK] at hok ⊢
        obtain ⟨s, rfl⟩ := hv
        have h1 : foldFields loc (("city", JSON.str s) :: rest) =
            foldFields { loc with City := s } rest := rfl
        rw [h1, ih _ hwtr hndr]
        have hnone := jlookup_eq_none hkni
        simp [strAt, numAt, jlookup_cons, hnone]
      by_cases hc2 : k = "zip"
      · subst hc2
        have hv : ∃ s, v = JSON.str s := by cases v <;> simp [fieldOK] at hok ⊢
        obtain ⟨s, rfl⟩ := hv
        have h1 : foldFields loc (("zip", JSON.str s) :: rest) =
            foldFields { loc with Zip := s } rest := rfl
        rw [h1, ih _ hwtr hndr]
        have hnone := jlookup_eq_none hkni
        simp [strAt, numAt, jlookup_cons, hnone]
      by_cases hc3 : k = "longitude"
      · subst hc3
        have hv : ∃ q, v = JSON.num q := by cases v <;> simp [fieldOK] at hok ⊢
        obtain ⟨q, rfl⟩ := hv
        have h1 : foldFields loc (("longitude", JSON.num q) :: rest) =
            foldFields { loc with Longitude := q } rest := rfl
        rw [h1, ih _ hwtr hndr]
        have hnone := jlookup_eq_none hkni
        simp [strAt, numAt, jlookup_cons, hnone]
      by_cases hc4 : k = "state"
      · subst hc4
        have hv : ∃ s, v = JSON.str s := by cases v <;> simp [fieldOK] at hok ⊢
        obtain ⟨s, rfl⟩ := hv
        have h1 : foldFields loc (("state", JSON.str s) :: rest) =
            foldFields { loc with State := s } rest := rfl
        rw [h1, ih _ hwtr hndr]
        have hnone := jlookup_eq_none hkni
        simp [strAt, numAt, jlookup_cons, hnone]
      by_cases hc5 : k = "latitude"
      · subst hc5
        have hv : ∃ q, v = JSON.num q := by cases v <;> simp [fieldOK] at hok ⊢
        obtain ⟨q, rfl⟩ := hv
        have h1 : foldFields loc (("latitude", JSON.num q) :: rest) =
            foldFields { loc with Latitude := q } rest := rfl
        rw [h1, ih _ hwtr hndr]
        have hnone := jlookup_eq_none hkni
        simp [strAt, numAt, jlookup_cons, hnone]
      · have h1 : applyField loc k v = pure loc := by
          simp [applyField, hc1, hc2, hc3, hc4, hc5]
        have h2 : foldFields loc ((k, v) :: rest) =
            (applyField loc k v).bind (fun l => foldFields l rest) := rfl
        have h3 : (pure loc : Except GoPanic LocationData).bind
            (fun l => foldFields l rest) = foldFields loc rest := rfl
        rw [h2, h1, h3, ih _ hwtr hndr]
        simp [strAt, numAt, jlookup_cons, hc1, hc2, hc3, hc4, hc5]

/-- Full behaviour of latLonForZip on a response with a non-empty records
array whose first record carries a well-typed fields mapping: the result
is the per-key extraction described by specLocationOfFields. -/
theorem latLonForZip_spec (net : String → HTTPOutcome) (zip : String)
    (fl rl0 gl : List (String × JSON)) (rrest : List JSON)
    (hnet : net (geoURL zip) = .ok (.ok (.obj fl)))
    (hrec : jlookup fl "records" = some (.arr (JSON.obj rl0 :: rrest)))
    (hfields : jlookup rl0 "fields" = some (.obj gl))
    (hwt : wellTypedFields gl = true)
    (hnd : (gl.map Prod.fst).Nodup) :
    latLonForZip net zip = .ok (specLocationOfFields gl) := by
  simp only [latLonForZip, getJSONData, hnet, bind, Except.bind, asObj, hrec,
    asArrJ, asObjJ, hfields]
  rw [foldFields_eq gl {} hwt hnd]
  rfl

set_option maxRecDepth 100000 in
/-- C1. End-to-end orchestration: for input zip 20500, when the geocoding
fetch yields the Washington DC record, the stations fetch yields the KDCA
station URL, and the observation fetch yields temperature 21.1, the
orchestrator getObservationForZip returns exactly the LookupData record
with ZipCode 20500, City Washington, State DC, Temperature 21.1 and
Station KDCA. -/
theorem getObservationForZip_end_to_end :
    getObservationForZip mockNet "20500" =
      .ok ⟨"20500", "Washington", "DC", 21.1, "KDCA"⟩ := by
  with_unfolding_all rfl

/-- C2. For every stations response that is a JSON mapping in which the
key observationStations is absent or maps to an empty sequence,
findNearestStation returns the empty string and does not crash. -/
theorem findNearestStation_absent_or_empty (net : String → HTTPOutcome) (lat lon : ℚ)
    (fl : List (String × JSON))
    (hnet : net (stationsURL lat lon) = .ok (.ok (.obj fl)))
    (h : jlookup fl "observationStations" = none ∨
         jlookup fl "observationStations" = some (.arr [])) :
    findNearestStation net lat lon = .ok "" := by
  rcases h with h | h
  · simp only [findNearestStation, getJSONData, hnet, bind, Except.bind, asObj, h]
    rfl
  · simp only [findNearestStation, getJSONData, hnet, bind, Except.bind, asObj, h, asArrJ]
    rfl

/-- Witness for C2: the empty mapping has no observationStations key, and
the resolver returns the empty string on it. -/
theorem findNearestStation_absent_or_empty_witness :
    findNearestStation (constNet (JSON.obj [])) 0 0 = .ok "" :=
  findNearestStation_absent_or_empty (constNet (JSON.obj [])) 0 0 [] rfl (Or.inl rfl)

/-- C3. For every observation response that is a JSON mapping in which
the path properties.temperature.value is absent (every traversed present
level being a mapping), getLatestObservation returns an Observation with
temperature 0 and the station string it was given, unchanged. -/
theorem getLatestObservation_missing_value_default (net : String → HTTPOutcome)
    (station : String) (fl : List (String × JSON))
    (hnet : net (obsURL station) = .ok (.ok (.obj fl)))
    (h : tempPathAbsent fl = true) :
    getLatestObservation net station = .ok ⟨station, 0⟩ := by
  unfold tempPathAbsent at h
  simp only [getLatestObservation, getJSONData, hnet, bind, Except.bind, asObj]
  rcases hp : jlookup fl "properties" with _ | v
  · rfl
  · rw [hp] at h
    cases v
    case obj pl =>
      simp only at h
      simp only [asObjJ, bind, Except.bind]
      rcases ht : jlookup pl "temperature" with _ | w
      · rfl
      · rw [ht] at h
        cases w
        case obj tl =>
          simp only at h
          simp only [asObjJ, bind, Except.bind]
          rcases hv : jlookup tl "value" with _ | u
          · rfl
          · rw [hv] at h
            simp at h
        all_goals exact Bool.noConfusion h
    all_goals exact Bool.noConfusion h

/-- Witness for C3: on an empty observation mapping the fetcher returns
temperature 0 and the station identifier KDCA unchanged. -/
theorem getLatestObservation_missing_value_default_witness :
    getLatestObservation (constNet (JSON.obj [])) "KDCA" = .ok ⟨"KDCA", 0⟩ :=
  getLatestObservation_missing_value_default (constNet (JSON.obj [])) "KDCA" [] rfl rfl

set_option maxRecDepth 100000 in
/-- Counterexample to C4 as stated: a geocoding response with a non-empty
records array and a well-typed fields mapping whose latitude is 1000 makes
latLonForZip return a Location whose latitude is 1000, outside [-90, 90]:
the code copies coordinates without any range validation. -/
theorem latLonForZip_unchecked_latitude_cex :
    latLonForZip (constNet cexGeoJ) "99999" =
      .ok { City := "", State := "", Zip := "99999", Latitude := 1000, Longitude := 0 } ∧
    ¬ ((1000 : ℚ) ≤ 90) :=
  ⟨by with_unfolding_all rfl, by decide⟩

/-- C4 (amended). For every zip code for which the geocoding response has a
non-empty records array whose first record carries a well-typed fields
mapping (unique keys) containing a zip string, latLonForZip returns a
Location echoing that zip; its latitude and longitude lie in [-90, 90] and
[-180, 180] provided the response's coordinate values, when present, lie
in those ranges (absent coordinates default to 0). -/
theorem latLonForZip_zip_echo_and_ranges (net : String → HTTPOutcome) (zip : String)
    (fl rl0 gl : List (String × JSON)) (rrest : List JSON) (z : String)
    (hnet : net (geoURL zip) = .ok (.ok (.obj fl)))
    (hrec : jlookup fl "records" = some (.arr (JSON.obj rl0 :: rrest)))
    (hfields : jlookup rl0 "fields" = some (.obj gl))
    (hwt : wellTypedFields gl = true)
    (hnd : (gl.map Prod.fst).Nodup)
    (hzip : jlookup gl "zip" = some (JSON.str z))
    (hlat : ∀ a : ℚ, jlookup gl "latitude" = some (JSON.num a) → -90 ≤ a ∧ a ≤ 90)
    (hlon : ∀ b : ℚ, jlookup gl "longitude" = some (JSON.num b) → -180 ≤ b ∧ b ≤ 180) :
    ∃ loc : LocationData, latLonForZip net zip = Except.ok loc ∧ loc.Zip = z ∧
      -90 ≤ loc.Latitude ∧ loc.Latitude ≤ 90 ∧
      -180 ≤ loc.Longitude ∧ loc.Longitude ≤ 180 := by
  have hlatr : -90 ≤ numAt gl "latitude" 0 ∧ numAt gl "latitude" 0 ≤ 90 := by
    rcases hv : jlookup gl "latitude" with _ | v
    · simp only [numAt, hv]
      constructor <;> norm_num
    · cases v
      case num a => simp only [numAt, hv]; exact hlat a hv
      all_goals (simp only [numAt, hv]; constructor <;> norm_num)
  have hlonr : -180 ≤ numAt gl "longitude" 0 ∧ numAt gl "longitude" 0 ≤ 180 := by
    rcases hv : jlookup gl "longitude" with _ | v
    · simp only [numAt, hv]
      constructor <;> norm_num
    · cases v
      case num b => simp only [numAt, hv]; exact hlon b hv
      all_goals (simp only [numAt, hv]; constructor <;> norm_num)
  refine ⟨specLocationOfFields gl,
    latLonForZip_spec net zip fl rl0 gl rrest hnet hrec hfields hwt hnd,
    ?_, hlatr.1, hlatr.2, hlonr.1, hlonr.2⟩
  simp [specLocationOfFields, strAt, hzip]

/-- Witness for C4 (amended), at the mocked Washington DC response. -/
theorem latLonForZip_zip_echo_and_ranges_witness :
    ∃ loc : LocationData, latLonForZip (constNet (JSON.obj geoFL)) "20500" = Except.ok loc ∧
      loc.Zip = "20500" ∧ -90 ≤ loc.Latitude ∧ loc.Latitude ≤ 90 ∧
      -180 ≤ loc.Longitude ∧ loc.Longitude ≤ 180 :=
  latLonForZip_zip_echo_and_ranges (constNet (JSON.obj geoFL)) "20500" geoFL rl0L fieldsL
    [] "20500" rfl rfl rfl (by decide) (by decide) rfl
    (fun a ha => by simp [fieldsL, jlookup] at ha; subst ha; constructor <;> norm_num)
    (fun b hb => by simp [fieldsL, jlookup] at hb; subst hb; constructor <;> norm_num)

/-- C5. Geocoder extraction policy: on a response whose records array is
non-empty and whose first record carries a well-typed fields mapping
(unique keys), latLonForZip copies each present recognised key into the
corresponding Location field, leaves each absent key at its zero value,
and ignores unknown keys without error: the result is exactly
specLocationOfFields applied to the fields entries. -/
theorem latLonForZip_extraction_policy (net : String → HTTPOutcome) (zip : String)
    (fl rl0 gl : List (String × JSON)) (rrest : List JSON)
    (hnet : net (geoURL zip) = .ok (.ok (.obj fl)))
    (hrec : jlookup fl "records" = some (.arr (JSON.obj rl0 :: rrest)))
    (hfields : jlookup rl0 "fields" = some (.obj gl))
    (hwt : wellTypedFields gl = true)
    (hnd : (gl.map Prod.fst).Nodup) :
    latLonForZip net zip = .ok (specLocationOfFields gl) :=
  latLonForZip_spec net zip fl rl0 gl rrest hnet hrec hfields hwt hnd

/-- Witness for C5, at the mocked Washington DC response. -/
theorem latLonForZip_extraction_policy_witness :
    latLonForZip (constNet (JSON.obj geoFL)) "20500" = .ok (specLocationOfFields fieldsL) :=
  latLonForZip_extraction_policy (constNet (JSON.obj geoFL)) "20500" geoFL rl0L fieldsL
    [] rfl rfl rfl (by decide) (by decide)

/-- C6. Soft-failure degradation: whenever getJSONData returns its nil
sentinel for the URL an extractor fetches, that extractor crashes at its
first type assertion (a typeAssertion panic) instead of degrading to a
zero-valued result; this holds for latLonForZip, findNearestStation and
getLatestObservation alike. -/
theorem extractors_crash_on_nil_sentinel (net : String → HTTPOutcome) (zip : String)
    (lat lon : ℚ) (station : String) :
    ((getJSONData net (geoURL zip)).1 = none →
        latLonForZip net zip = .error .typeAssertion) ∧
    ((getJSONData net (stationsURL lat lon)).1 = none →
        findNearestStation net lat lon = .error .typeAssertion) ∧
    ((getJSONData net (obsURL station)).1 = none →
        getLatestObservation net station = .error .typeAssertion) := by
  refine ⟨fun h => ?_, fun h => ?_, fun h => ?_⟩
  · simp only [latLonForZip, h, asObj, bind, Except.bind]
  · simp only [findNearestStation, h, asObj, bind, Except.bind]
  · simp only [getLatestObservation, h, asObj, bind, Except.bind]

/-- Witness for C6: all three extractors crash on a downed network. -/
theorem extractors_crash_on_nil_sentinel_witness :
    latLonForZip downNet "20500" = .error .typeAssertion ∧
    findNearestStation downNet 0 0 = .error .typeAssertion ∧
    getLatestObservation downNet "KDCA" = .error .typeAssertion :=
  ⟨(extractors_crash_on_nil_sentinel downNet "20500" 0 0 "KDCA").1 rfl,
   (extractors_crash_on_nil_sentinel downNet "20500" 0 0 "KDCA").2.1 rfl,
   (extractors_crash_on_nil_sentinel downNet "20500" 0 0 "KDCA").2.2 rfl⟩

/-- C7. For every geocoding response that is a mapping whose records key
holds an empty array, latLonForZip crashes with an index-out-of-range
panic and does not return an empty or zero-valued Location. -/
theorem latLonForZip_empty_records_crash (net : String → HTTPOutcome) (zip : String)
    (fl : List (String × JSON))
    (hnet : net (geoURL zip) = .ok (.ok (.obj fl)))
    (hrec : jlookup fl "records" = some (.arr [])) :
    latLonForZip net zip = .error .indexOutOfRange := by
  simp only [latLonForZip, getJSONData, hnet, bind, Except.bind, asObj, hrec, asArrJ]
  rfl

/-- Witness for C7, at the concrete zero-record response. -/
theorem latLonForZip_empty_records_crash_witness :
    latLonForZip (constNet (JSON.obj [("records", JSON.arr [])])) "20500" =
      .error .indexOutOfRange :=
  latLonForZip_empty_records_crash (constNet (JSON.obj [("records", JSON.arr [])]))
    "20500" [("records", JSON.arr [])] rfl rfl

/-- C8. For every URL, if the HTTP GET fails at transport level, or the
GET succeeds but the body fails to decode as JSON, getJSONData returns the
nil sentinel as an ordinary value (no panic), writing one diagnostic line
to standard output in either case. -/
theorem getJSONData_failure_sentinel (net : String → HTTPOutcome) (url e : String) :
    (net url = .error e → getJSONData net url =
      (none, ["There was an error making the request to the location info API: " ++ e ++ "\n"])) ∧
    (net url = .ok (.error e) → getJSONData net url =
      (none, ["There was an error processing JSON data: " ++ e ++ "\n"])) := by
  constructor <;> intro h <;> simp [getJSONData, h]

/-- Witness for C8: transport failure yields the sentinel plus one log line. -/
theorem getJSONData_failure_sentinel_witness :
    getJSONData downNet "https://example.org/x" =
      (none, ["There was an error making the request to the location info API: " ++
        "connection refused" ++ "\n"]) :=
  (getJSONData_failure_sentinel downNet "https://example.org/x" "connection refused").1 rfl

/-- Counterexample to C9 as stated: a stations response whose first
station entry is the two-character string "ab" makes findNearestStation
crash with a slice-bounds panic instead of returning a trailing slice. -/
theorem findNearestStation_short_url_cex :
    findNearestStation
      (constNet (JSON.obj [("observationStations", JSON.arr [JSON.str "ab"])])) 0 0 =
      .error .sliceBounds := by
  with_unfolding_all rfl

/-- C9 (amended). For every stations response whose observationStations
sequence has as first element a string of at least 4 characters,
findNearestStation returns exactly the trailing 4 characters of that
string, and any run on an equal response value returns the same
identifier (on a shorter string it crashes with a slice-bounds panic,
as the counterexample shows). -/
theorem findNearestStation_trailing_four (net : String → HTTPOutcome) (lat lon : ℚ)
    (fl : List (String × JSON)) (s : String) (rest : List JSON)
    (hnet : net (stationsURL lat lon) = .ok (.ok (.obj fl)))
    (hobs : jlookup fl "observationStations" = some (.arr (JSON.str s :: rest)))
    (hlen : 4 ≤ s.length) :
    findNearestStation net lat lon = .ok (s.drop (s.length - 4)) ∧
    ∀ net2 : String → HTTPOutcome,
      net2 (stationsURL lat lon) = .ok (.ok (.obj fl)) →
      findNearestStation net2 lat lon = findNearestStation net lat lon := by
  have hrun : ∀ n : String → HTTPOutcome, n (stationsURL lat lon) = .ok (.ok (.obj fl)) →
      findNearestStation n lat lon = .ok (s.drop (s.length - 4)) := by
    intro n hn
    simp only [findNearestStation, getJSONData, hn, bind, Except.bind, asObj, hobs,
      asArrJ, asStrJ]
    rw [if_pos hlen]
    rfl
  exact ⟨hrun net hnet, fun n2 h2 => (hrun n2 h2).trans (hrun net hnet).symm⟩

set_option maxRecDepth 100000 in
/-- Witness for C9 (amended): the KDCA station URL yields identifier KDCA. -/
theorem findNearestStation_trailing_four_witness :
    findNearestStation (constNet staJ) 38.9 (-77.03) = .ok "KDCA" :=
  (findNearestStation_trailing_four (constNet staJ) 38.9 (-77.03)
      [("observationStations", JSON.arr [JSON.str "https://api.weather.gov/stations/KDCA"])]
      "https://api.weather.gov/stations/KDCA" [] rfl rfl (by decide)).1.trans
    (by with_unfolding_all rfl)

/-- C10. For every observation response of the shape where the path
properties.temperature.value exists but holds JSON null, and for every
station, getLatestObservation crashes at the float64 type assertion
instead of falling back to the default temperature 0. -/
theorem getLatestObservation_null_value_crash (net : String → HTTPOutcome) (station : String)
    (hnet : net (obsURL station) = .ok (.ok nullValueObsJ)) :
    getLatestObservation net station = .error .typeAssertion := by
  simp only [getLatestObservation, getJSONData, hnet]
  rfl

/-- Witness for C10, at the concrete null-valued observation response. -/
theorem getLatestObservation_null_value_crash_witness :
    getLatestObservation (constNet nullValueObsJ) "KDCA" = .error .typeAssertion :=
  getLatestObservation_null_value_crash (constNet nullValueObsJ) "KDCA" rfl
